import Mathlib

/-!
Verification of the lently comment-insights pipeline against its
specification.  The definitions below are shallow embeddings of the
TypeScript frontend modules (`frontend/src/lib/cache/dataCache.ts`,
`frontend/src/lib/api/client.ts`, `frontend/src/lib/api/videos.ts`,
`frontend/src/lib/api/comments.ts`, `frontend/src/lib/api/alerts.ts`,
the `Analyzing`, `AddVideo`, `ChoosePlan` and `AskAISection` components)
and, where the backend worker is not among the provided sources, of the
behaviour the specification prescribes for it (each such definition is
marked `Modelled from the spec:`).
-/

/-! ## String helpers

`strIncludes key pat` mirrors JavaScript `key.includes(pat)`:
`pat` occurs as a contiguous substring of `key`. -/

def strIncludes (key pat : String) : Bool :=
  key.toList.tails.any fun t => pat.toList.isPrefixOf t

/-! ## DataCache (`frontend/src/lib/cache/dataCache.ts`)

The in-memory cache is a JS `Map` from string keys to entries carrying
the stored data, the insertion timestamp and an absolute expiry time.
We model the map as an association list whose lookup takes the first
binding for a key; `set` replaces any previous binding. -/

structure CacheEntry (α : Type) where
  data : α
  timestamp : Nat
  expiresAt : Nat
  deriving Repr, DecidableEq

def Cache (α : Type) : Type := List (String × CacheEntry α)

namespace DataCache

/-- Default TTL `5 * 60 * 1000` milliseconds, from `dataCache.ts`. -/
def defaultTTL : Nat := 5 * 60 * 1000

def find? {α : Type} (c : Cache α) (k : String) : Option (CacheEntry α) :=
  (List.find? (fun p => p.1 == k) c).map (·.2)

/-- Removal of every binding whose key satisfies the complement of `f`
(the shape shared by `invalidate` and `invalidatePattern`). -/
def keyFilter {α : Type} (f : String → Bool) (c : Cache α) : Cache α :=
  c.filter fun p => f p.1

/-- Mirrors `Map.delete(key)`. -/
def delete {α : Type} (c : Cache α) (k : String) : Cache α :=
  keyFilter (fun k' => !(k' == k)) c

/-- Mirrors `DataCache.set(key, data, ttl)`: stores `expiresAt = now + ttl`,
replacing any previous binding for `key`. -/
def set {α : Type} (c : Cache α) (k : String) (v : α) (ttl now : Nat) : Cache α :=
  (k, ⟨v, now, now + ttl⟩) :: delete c k

/-- Mirrors `DataCache.get(key)` at clock value `now`: a missing key yields
`null`; an entry with `now > expiresAt` is deleted and yields `null`;
otherwise the stored data is returned and the cache is untouched. -/
def get {α : Type} (c : Cache α) (k : String) (now : Nat) : Option α × Cache α :=
  match List.find? (fun p => p.1 == k) c with
  | none => (none, c)
  | some (_, e) => if now > e.expiresAt then (none, delete c k) else (some e.data, c)

/-- Mirrors `DataCache.invalidate(key)`. -/
def invalidate {α : Type} (c : Cache α) (k : String) : Cache α :=
  delete c k

/-- Mirrors `DataCache.invalidatePattern(pattern)`: deletes every key with
`key.includes(pattern)`. -/
def invalidatePattern {α : Type} (c : Cache α) (pat : String) : Cache α :=
  keyFilter (fun k => !(strIncludes k pat)) c

theorem find?_keyFilter {α : Type} (f : String → Bool) (c : Cache α) (k : String) :
    find? (keyFilter f c) k = if f k then find? c k else none := by
  induction c with
  | nil => simp [find?, keyFilter]
  | cons p c ih =>
    by_cases hk : p.1 == k
    · have hkeq : p.1 = k := by simpa using hk
      subst hkeq
      by_cases hf : f p.1
      · simp [find?, keyFilter, List.filter, hf, hk]
      · simpa [find?, keyFilter, List.filter, hf, hk] using ih
    · by_cases hf : f p.1
      · simpa [find?, keyFilter, List.filter, hf, hk] using ih
      · simpa [find?, keyFilter, List.filter, hf, hk] using ih

theorem find?_delete_ne {α : Type} (c : Cache α) (k k' : String) (h : k ≠ k') :
    find? (delete c k') k = find? c k := by
  have : (!(k == k')) = true := by
    simp only [Bool.not_eq_true']
    exact beq_false_of_ne h
  rw [delete, find?_keyFilter, if_pos this]

theorem find?_set_self {α : Type} (c : Cache α) (k : String) (v : α) (ttl now : Nat) :
    find? (set c k v ttl now) k = some ⟨v, now, now + ttl⟩ := by
  simp [find?, set]

theorem get_set_self {α : Type} (c : Cache α) (k : String) (v : α) (ttl now tm : Nat) :
    get (set c k v ttl now) k tm =
      if tm > now + ttl then (none, delete (set c k v ttl now) k)
      else (some v, set c k v ttl now) := by
  simp [get, set]

end DataCache

/-! ## `invalidateVideosCache` (`frontend/src/lib/api/videos.ts`, lines 128–132) -/

/-- Key `CACHE_KEYS.USER_VIDEOS`. -/
def USER_VIDEOS : String := "user:videos"

/-- Mirrors `invalidateVideosCache()`: invalidates the user-videos key, then every
key containing `'video:'`, then every key containing `'comments:'`. -/
def invalidateVideosCache {α : Type} (c : Cache α) : Cache α :=
  DataCache.invalidatePattern
    (DataCache.invalidatePattern (DataCache.invalidate c USER_VIDEOS) "video:")
    "comments:"

namespace DataCache

theorem find?_set_ne {α : Type} (c : Cache α) (k k' : String) (v : α) (ttl now : Nat)
    (h : k ≠ k') : find? (set c k' v ttl now) k = find? c k := by
  have hb : (k' == k) = false := beq_false_of_ne (Ne.symm h)
  simp only [set, find?, List.find?, hb]
  exact find?_delete_ne c k k' h

theorem get_snd_find?_ne {α : Type} (c : Cache α) (k k' : String) (tm : Nat)
    (h : k ≠ k') : find? ((get c k' tm).2) k = find? c k := by
  unfold get
  cases List.find? (fun p => p.1 == k') c with
  | none => rfl
  | some p =>
    by_cases he : tm > p.2.expiresAt
    · simpa [he] using find?_delete_ne c k k' h
    · simp [he]

theorem get_fst_eq_none {α : Type} (c : Cache α) (k : String) (now : Nat)
    (h : find? c k = none) : (get c k now).1 = none := by
  unfold get
  cases hf : List.find? (fun p => p.1 == k) c with
  | none => rfl
  | some p =>
    rw [find?, hf] at h
    simp at h

end DataCache

/-- Claim C5: `DataCache.set(key, value, t)` at time `now` makes `get(key)` at
any time `tm ≤ now + t` return exactly the stored value (leaving the cache
unchanged); `get(key)` at any `tm > now + t` returns `null` and removes the
entry; operations on a different key never touch the entry, so it is only
replaced or evicted, never mutated in place. -/
theorem C5_dataCache_ttl {α : Type} (c : Cache α) (k : String) (v : α) (t now tm : Nat) :
    (tm ≤ now + t →
      DataCache.get (DataCache.set c k v t now) k tm = (some v, DataCache.set c k v t now)) ∧
    (tm > now + t →
      DataCache.get (DataCache.set c k v t now) k tm
        = (none, DataCache.delete (DataCache.set c k v t now) k)) ∧
    (∀ k', k ≠ k' → ∀ v' t' n',
      DataCache.find? (DataCache.set (DataCache.set c k v t now) k' v' t' n') k
          = DataCache.find? (DataCache.set c k v t now) k ∧
      DataCache.find? ((DataCache.get (DataCache.set c k v t now) k' tm).2) k
          = DataCache.find? (DataCache.set c k v t now) k) := by
  refine ⟨fun h => ?_, fun h => ?_, fun k' hk v' t' n' => ?_⟩
  · rw [DataCache.get_set_self, if_neg (by omega)]
  · rw [DataCache.get_set_self, if_pos h]
  · exact ⟨DataCache.find?_set_ne _ k k' v' t' n' hk,
      DataCache.get_snd_find?_ne _ k k' tm hk⟩

theorem C5_dataCache_ttl_witness :
    DataCache.get (DataCache.set ([] : Cache Nat) "k" 7 1000 0) "k" 1000
      = (some 7, DataCache.set ([] : Cache Nat) "k" 7 1000 0) ∧
    DataCache.get (DataCache.set ([] : Cache Nat) "k" 7 1000 0) "k" 1001
      = (none, DataCache.delete (DataCache.set ([] : Cache Nat) "k" 7 1000 0) "k") ∧
    DataCache.find? ((DataCache.get (DataCache.set ([] : Cache Nat) "k" 7 1000 0) "j" 0).2) "k"
      = DataCache.find? (DataCache.set ([] : Cache Nat) "k" 7 1000 0) "k" :=
  ⟨(C5_dataCache_ttl [] "k" 7 1000 0 1000).1 (by decide),
   (C5_dataCache_ttl [] "k" 7 1000 0 1001).2.1 (by decide),
   ((C5_dataCache_ttl [] "k" 7 1000 0 0).2.2 "j" (by decide) 0 0 0).2⟩

/-- Claim C8: after `invalidateVideosCache` runs, any lookup of the
user-videos key or of a key containing `'video:'` or `'comments:'` misses,
while every other key's entry is left unchanged. -/
theorem C8_invalidateVideosCache_spec {α : Type} (c : Cache α) (k : String) (now : Nat) :
    ((k = USER_VIDEOS ∨ strIncludes k "video:" = true ∨ strIncludes k "comments:" = true) →
      (DataCache.get (invalidateVideosCache c) k now).1 = none) ∧
    (k ≠ USER_VIDEOS → strIncludes k "video:" = false → strIncludes k "comments:" = false →
      DataCache.find? (invalidateVideosCache c) k = DataCache.find? c k) := by
  have hfind : DataCache.find? (invalidateVideosCache c) k =
      if !(strIncludes k "comments:") then
        if !(strIncludes k "video:") then
          if !(k == USER_VIDEOS) then DataCache.find? c k else none
        else none
      else none := by
    rw [invalidateVideosCache, DataCache.invalidatePattern, DataCache.find?_keyFilter,
      DataCache.invalidatePattern, DataCache.find?_keyFilter,
      DataCache.invalidate, DataCache.delete, DataCache.find?_keyFilter]
  constructor
  · intro h
    apply DataCache.get_fst_eq_none
    rw [hfind]
    rcases h with h | h | h
    · subst h
      by_cases h1 : strIncludes USER_VIDEOS "comments:" = true <;>
        by_cases h2 : strIncludes USER_VIDEOS "video:" = true <;>
          simp [h1, h2]
    · by_cases h1 : strIncludes k "comments:" = true <;> simp [h1, h]
    · simp [h]
  · intro h1 h2 h3
    have hb : (k == USER_VIDEOS) = false := beq_false_of_ne h1
    rw [hfind, h2, h3, hb]
    rfl

theorem C8_invalidateVideosCache_witness :
    (DataCache.get (invalidateVideosCache
        [("comments:v1", (⟨3, 0, 999999⟩ : CacheEntry Nat)),
         ("user:profile", (⟨5, 0, 999999⟩ : CacheEntry Nat))]) "comments:v1" 0).1 = none ∧
    DataCache.find? (invalidateVideosCache
        [("comments:v1", (⟨3, 0, 999999⟩ : CacheEntry Nat)),
         ("user:profile", (⟨5, 0, 999999⟩ : CacheEntry Nat))]) "user:profile"
      = DataCache.find?
        [("comments:v1", (⟨3, 0, 999999⟩ : CacheEntry Nat)),
         ("user:profile", (⟨5, 0, 999999⟩ : CacheEntry Nat))] "user:profile" :=
  ⟨(C8_invalidateVideosCache_spec _ "comments:v1" 0).1 (Or.inr (Or.inr (by decide))),
   (C8_invalidateVideosCache_spec _ "user:profile" 0).2 (by decide) (by decide) (by decide)⟩

/-! ## `apiFetch` (`frontend/src/lib/api/client.ts`, lines 50–75)

Only the response-handling stage is modelled: the fetch has returned a
response with an `ok` flag, a numeric status, a success payload (the JSON
body on the ok path) and, for the failure path, the result of trying to
parse the body as JSON and read its `detail` field.  The module-level
`tokenCache` is threaded explicitly. -/

structure TokenCache where
  token : String
  expiresAt : Nat
  deriving Repr, DecidableEq

/-- Result of `response.json()` on a failing response: either the body is
not parseable JSON, or it is an object with an optional `detail` field. -/
inductive ParsedBody where
  | unparseable : ParsedBody
  | obj : Option String → ParsedBody
  deriving Repr, DecidableEq

structure HttpResponse (α : Type) where
  ok : Bool
  status : Nat
  body : ParsedBody
  json : α

/-- Mirrors `apiFetch`: on `ok`, return the parsed JSON body; otherwise clear the
token cache when the status is 401, then throw `error.detail ||
`HTTP ${status}``, where an unparseable body is replaced by
`{ detail: 'An error occurred' }`. -/
def apiFetch {α : Type} (tc : Option TokenCache) (resp : HttpResponse α) :
    Except String α × Option TokenCache :=
  if resp.ok then (.ok resp.json, tc)
  else
    let tc1 := if resp.status == 401 then none else tc
    let fallback := match resp.body with
      | .unparseable => ParsedBody.obj (some "An error occurred")
      | .obj d => .obj d
    let msg := match fallback with
      | .obj (some d) => if d = "" then "HTTP " ++ toString resp.status else d
      | _ => "HTTP " ++ toString resp.status
    (.error msg, tc1)

/-- Claim C9: `apiFetch` returns the parsed JSON body exactly when the
response is ok; otherwise it throws the body's nonempty `detail` when one
parses, `HTTP <status>` when the body parses without a detail, and
`An error occurred` when the body is unparseable; the token cache is
cleared exactly when the failing status is 401 and is untouched otherwise. -/
theorem C9_apiFetch_spec {α : Type} (tc : Option TokenCache) (resp : HttpResponse α) :
    (resp.ok = true → apiFetch tc resp = (.ok resp.json, tc)) ∧
    (resp.ok = false → ∀ d, resp.body = .obj (some d) → d ≠ "" →
      (apiFetch tc resp).1 = .error d) ∧
    (resp.ok = false → resp.body = .obj none →
      (apiFetch tc resp).1 = .error ("HTTP " ++ toString resp.status)) ∧
    (resp.ok = false → resp.body = .unparseable →
      (apiFetch tc resp).1 = .error "An error occurred") ∧
    ((apiFetch tc resp).2 = if resp.ok = false ∧ resp.status = 401 then none else tc) := by
  refine ⟨fun hok => ?_, fun hok d hd hne => ?_, fun hok hd => ?_, fun hok hd => ?_, ?_⟩
  · simp [apiFetch, hok]
  · simp [apiFetch, hok, hd, hne]
  · simp [apiFetch, hok, hd]
  · simp [apiFetch, hok, hd]
  · by_cases hok : resp.ok
    · simp [apiFetch, hok]
    · by_cases h401 : resp.status = 401
      · simp [apiFetch, hok, h401]
      · have : (resp.status == 401) = false := by
          simpa using h401
        simp [apiFetch, hok, h401, this]

theorem C9_apiFetch_spec_witness :
    apiFetch (some ⟨"tok", 99⟩) (⟨true, 200, .obj none, 42⟩ : HttpResponse Nat)
      = (.ok 42, some ⟨"tok", 99⟩) ∧
    (apiFetch (some ⟨"tok", 99⟩)
      (⟨false, 403, .obj (some "Quota exceeded"), 0⟩ : HttpResponse Nat)).1
      = .error "Quota exceeded" ∧
    (apiFetch (some ⟨"tok", 99⟩) (⟨false, 500, .unparseable, 0⟩ : HttpResponse Nat)).1
      = .error "An error occurred" ∧
    (apiFetch (some ⟨"tok", 99⟩) (⟨false, 401, .obj none, 0⟩ : HttpResponse Nat)).2
      = none :=
  ⟨(C9_apiFetch_spec (some ⟨"tok", 99⟩) ⟨true, 200, .obj none, 42⟩).1 rfl,
   (C9_apiFetch_spec (some ⟨"tok", 99⟩) ⟨false, 403, .obj (some "Quota exceeded"), 0⟩).2.1
     rfl "Quota exceeded" rfl (by decide),
   (C9_apiFetch_spec (some ⟨"tok", 99⟩) ⟨false, 500, .unparseable, 0⟩).2.2.2.1 rfl rfl,
   by
    have h := (C9_apiFetch_spec (some ⟨"tok", 99⟩)
      (⟨false, 401, .obj none, 0⟩ : HttpResponse Nat)).2.2.2.2
    simpa using h⟩

/-! ## Filtered queries (`frontend/src/lib/api/comments.ts` `getVideoComments`,
`frontend/src/lib/api/alerts.ts` `getAlerts`)

`URLSearchParams` appends happen under JavaScript truthiness tests
(`if (filters?.category) ...`), except `minToxicity`, which is appended
whenever it is defined (`!== undefined`).  Strings are truthy when
nonempty and numbers when nonzero.  The network is an oracle from the
request URL to the response. -/

structure CommentFilters where
  category : Option String
  sentiment : Option String
  minToxicity : Option ℚ
  search : Option String
  sortBy : Option String
  order : Option String
  limit : Option Nat
  offset : Option Nat
  deriving Repr, DecidableEq

def optStrParam (name : String) (v : Option String) : List (String × String) :=
  match v with
  | some s => if s = "" then [] else [(name, s)]
  | none => []

def optNatParam (name : String) (v : Option Nat) : List (String × String) :=
  match v with
  | some n => if n = 0 then [] else [(name, toString n)]
  | none => []

def minToxParam (v : Option ℚ) : List (String × String) :=
  match v with
  | some q => [("minToxicity", toString q)]
  | none => []

def commentParams (f : CommentFilters) : List (String × String) :=
  optStrParam "category" f.category ++ optStrParam "sentiment" f.sentiment ++
  minToxParam f.minToxicity ++ optStrParam "search" f.search ++
  optStrParam "sortBy" f.sortBy ++ optStrParam "order" f.order ++
  optNatParam "limit" f.limit ++ optNatParam "offset" f.offset

def renderQuery (ps : List (String × String)) : String :=
  String.intercalate "&" (ps.map fun p => p.1 ++ "=" ++ p.2)

def commentsQueryString (f : CommentFilters) : String :=
  renderQuery (commentParams f)

/-- A filter record carries at least one filter parameter (the reading of
claim C10: some field is present at all). -/
def hasCommentFilterParam (f : CommentFilters) : Bool :=
  f.category.isSome || f.sentiment.isSome || f.minToxicity.isSome || f.search.isSome ||
  f.sortBy.isSome || f.order.isSome || f.limit.isSome || f.offset.isSome

structure FetchOutcome (α : Type) where
  result : α
  cacheAfter : Cache α
  fromNetwork : Bool

/-- Mirrors `getVideoComments(videoId, filters, skipCache)`: the cache is read only
when `!skipCache` and the query string is empty, and written only when the
query string is empty. -/
def getVideoComments {α : Type} (c : Cache α) (videoId : String)
    (filters : Option CommentFilters) (skipCache : Bool) (now : Nat)
    (net : String → α) : FetchOutcome α :=
  let qs := match filters with
    | none => ""
    | some f => commentsQueryString f
  let url := "/api/videos/" ++ videoId ++ "/comments" ++ (if qs = "" then "" else "?" ++ qs)
  let cacheKey := "comments:" ++ videoId
  let readStep : Option α × Cache α :=
    if !skipCache && (qs == "") then DataCache.get c cacheKey now else (none, c)
  match readStep with
  | (some v, c1) => ⟨v, c1, false⟩
  | (none, c1) =>
      let response := net url
      ⟨response,
       if qs == "" then DataCache.set c1 cacheKey response DataCache.defaultTTL now else c1,
       true⟩

structure AlertFilters where
  unreadOnly : Option Bool
  alertType : Option String
  severity : Option String
  limit : Option Nat
  deriving Repr, DecidableEq

def alertParams (f : AlertFilters) : List (String × String) :=
  (match f.unreadOnly with
   | some true => [("unread_only", "true")]
   | _ => []) ++
  optStrParam "alert_type" f.alertType ++ optStrParam "severity" f.severity ++
  optNatParam "limit" f.limit

def alertsQueryString (f : AlertFilters) : String :=
  renderQuery (alertParams f)

/-- Mirrors `getAlerts(filters, skipCache)`: same shape as `getVideoComments`, with
key `'alerts:all'` and a 2-minute TTL. -/
def getAlerts {α : Type} (c : Cache α) (filters : Option AlertFilters)
    (skipCache : Bool) (now : Nat) (net : String → α) : FetchOutcome α :=
  let qs := match filters with
    | none => ""
    | some f => alertsQueryString f
  let url := "/api/alerts" ++ (if qs = "" then "" else "?" ++ qs)
  let cacheKey := "alerts:all"
  let readStep : Option α × Cache α :=
    if !skipCache && (qs == "") then DataCache.get c cacheKey now else (none, c)
  match readStep with
  | (some v, c1) => ⟨v, c1, false⟩
  | (none, c1) =>
      let response := net url
      ⟨response,
       if qs == "" then DataCache.set c1 cacheKey response (2 * 60 * 1000) now else c1,
       true⟩

/-- Claim C10, counterexample: the comments query `{ offset: 0 }` carries a
filter parameter, yet `offset` is falsy, the query string serializes empty,
and the request is answered from the cache (the cached value 9, not the
network's 5). -/
theorem C10_counterexample :
    hasCommentFilterParam ⟨none, none, none, none, none, none, none, some 0⟩ = true ∧
    (getVideoComments (DataCache.set ([] : Cache Nat) "comments:v1" 9 1000 0) "v1"
        (some ⟨none, none, none, none, none, none, none, some 0⟩) false 0
        (fun _ => 5)).fromNetwork = false ∧
    (getVideoComments (DataCache.set ([] : Cache Nat) "comments:v1" 9 1000 0) "v1"
        (some ⟨none, none, none, none, none, none, none, some 0⟩) false 0
        (fun _ => 5)).result = 9 := by
  refine ⟨by decide, by decide, by decide⟩

/-- Claim C10, amended: a comments or alerts query whose filters serialize
to a non-empty query string (at least one truthy filter value; `minToxicity`
whenever defined) always goes to the network and neither reads nor writes
the client-side cache; only a query with an empty query string can be served
from the cache or stored into it. -/
theorem C10_filtered_query_bypasses_cache {α : Type}
    (c : Cache α) (skipCache : Bool) (now : Nat) (net : String → α) :
    (∀ (videoId : String) (f : CommentFilters), commentsQueryString f ≠ "" →
      getVideoComments c videoId (some f) skipCache now net =
        ⟨net ("/api/videos/" ++ videoId ++ "/comments" ++ ("?" ++ commentsQueryString f)),
         c, true⟩) ∧
    (∀ f : AlertFilters, alertsQueryString f ≠ "" →
      getAlerts c (some f) skipCache now net =
        ⟨net ("/api/alerts" ++ ("?" ++ alertsQueryString f)), c, true⟩) := by
  constructor
  · intro videoId f h
    have hb : (commentsQueryString f == "") = false := beq_false_of_ne h
    simp [getVideoComments, hb, h]
  · intro f h
    have hb : (alertsQueryString f == "") = false := beq_false_of_ne h
    simp [getAlerts, hb, h]

theorem C10_filtered_query_bypasses_cache_witness :
    getVideoComments (DataCache.set ([] : Cache Nat) "comments:v1" 9 1000 0) "v1"
        (some ⟨some "praise", none, none, none, none, none, none, none⟩) false 0
        (fun _ => 5) =
      ⟨5, DataCache.set ([] : Cache Nat) "comments:v1" 9 1000 0, true⟩ ∧
    getAlerts (DataCache.set ([] : Cache Nat) "alerts:all" 9 1000 0)
        (some ⟨none, none, some "high", none⟩) false 0 (fun _ => 5) =
      ⟨5, DataCache.set ([] : Cache Nat) "alerts:all" 9 1000 0, true⟩ := by
  constructor
  · have h := (C10_filtered_query_bypasses_cache
      (DataCache.set ([] : Cache Nat) "comments:v1" 9 1000 0) false 0 (fun _ => 5)).1
      "v1" ⟨some "praise", none, none, none, none, none, none, none⟩ (by decide)
    simpa using h
  · have h := (C10_filtered_query_bypasses_cache
      (DataCache.set ([] : Cache Nat) "alerts:all" 9 1000 0) false 0 (fun _ => 5)).2
      ⟨none, none, some "high", none⟩ (by decide)
    simpa using h

/-! ## Sync-job status as exposed to the client
(`frontend/src/lib/api/videos.ts` lines 24–34, `Analyzing` page) -/

/-- The `JobStatus` record returned by `getJobStatus` (videos.ts 24–34). -/
structure JobStatusRec where
  jobId : String
  videoId : String
  status : String
  progress : Nat
  totalComments : Nat
  processedComments : Nat
  error : Option String
  createdAt : String
  updatedAt : String
  deriving Repr, DecidableEq

/-- The values of the `JobStatus.status` union type (videos.ts line 27):
`'queued' | 'processing' | 'completed' | 'failed'`. -/
def jobStatusStates : List String :=
  ["queued", "processing", "completed", "failed"]

/-- The six states named by the claim (spec §4.1), written as the claim
writes them. -/
def specClaimStates : List String :=
  ["Queued", "Fetching", "Analyzing", "Finalizing", "Completed", "Failed"]

/-- The claim's six states, lowercased, so the comparison with the code's
union is not about capitalisation. -/
def specClaimStatesLower : List String :=
  ["queued", "fetching", "analyzing", "finalizing", "completed", "failed"]

structure PollEffect where
  stopPolling : Bool
  navTarget : Option String
  deriving Repr, DecidableEq

/-- The terminal handling of `pollStatus` in the `Analyzing` page
(lines 62–111): on `'completed'` the poll interval is cleared and the app
navigates to the video-details page (or the videos list when `videoId` is
falsy); on `'failed'` the interval is cleared and the app navigates back to
the add-video page; otherwise polling continues. -/
def pollHandler (js : JobStatusRec) : PollEffect :=
  if js.status = "completed" then
    ⟨true, some (if js.videoId = "" then "/dashboard/videos"
                 else "/dashboard/videos/" ++ js.videoId)⟩
  else if js.status = "failed" then
    ⟨true, some "/dashboard/videos/add"⟩
  else
    ⟨false, none⟩

/-- The six UI steps of the `Analyzing` page, reduced to the fields the
claims touch: the status strings of `newSteps[0]`–`newSteps[5]` and the
`progress` annotation of `newSteps[2]`. -/
structure StepsState where
  connectedStep : String
  metadataStep : String
  downloadingStep : String
  downloadingProgress : Option String
  analyzingStep : String
  categorizingStep : String
  extractingStep : String
  deriving Repr, DecidableEq

def initialSteps : StepsState :=
  ⟨"pending", "pending", "pending", none, "pending", "pending", "pending"⟩

/-- Mirrors `updateSteps(progress, processed, total)` from the `Analyzing` page
(lines 135–174).  Each field mirrors the if-blocks that write the
corresponding `newSteps[i]`; the guarding conditions per index are mutually
exclusive, so the sequential writes collapse to one conditional each. -/
def updateSteps (progress processed total : Nat) (s : StepsState) : StepsState :=
  ⟨if 5 ≤ progress then "completed" else s.connectedStep,
   if 10 ≤ progress then "completed" else s.metadataStep,
   if 15 ≤ progress ∧ progress < 70 then "inProgress"
     else if 70 ≤ progress then "completed" else s.downloadingStep,
   if 15 ≤ progress ∧ progress < 70 then
     (if 0 < processed ∧ 0 < total then some (toString processed ++ "/" ++ toString total)
      else s.downloadingProgress)
     else if 70 ≤ progress then some (toString total ++ "/" ++ toString total)
     else s.downloadingProgress,
   if 75 ≤ progress ∧ progress < 85 then "inProgress"
     else if 85 ≤ progress then "completed" else s.analyzingStep,
   if 85 ≤ progress ∧ progress < 95 then "inProgress"
     else if 95 ≤ progress then "completed" else s.categorizingStep,
   if 95 ≤ progress ∧ progress < 100 then "inProgress"
     else if 100 ≤ progress then "completed" else s.extractingStep⟩

/-! ## Sync Orchestrator state machine

Modelled from the spec: the backend worker (`sync_service.process_sync_job`
and friends) is not among the provided sources, so the state machine of
spec §4.1 is embedded directly: states `Queued → Fetching → Analyzing →
Finalizing → Completed` with terminal `Failed` reachable from any
non-terminal state, `progressPercent = 10` on pickup, proportional advance
in 10–70 while fetching, 70–95 while analyzing/finalizing, 100 exactly at
completion, and progress kept on failure. -/

inductive JobState where
  | Queued | Fetching | Analyzing | Finalizing | Completed | Failed
  deriving Repr, DecidableEq

structure SyncJob where
  state : JobState
  progressPercent : Nat
  commentsTotal : Nat
  commentsProcessed : Nat
  deriving Repr, DecidableEq

/-- Fetch-phase progress: `10 + 60 * commentsProcessed / commentsTotal`,
the proportional advance of spec §4.1 within the 10–70 band. -/
def fetchProgress (processed total : Nat) : Nat :=
  10 + (60 * processed) / max total 1

def initJob : SyncJob := ⟨.Queued, 0, 0, 0⟩

/-- Modelled from the spec: one orchestrator transition (§4.1). -/
inductive JobStep : SyncJob → SyncJob → Prop where
  | pickup (j : SyncJob) (t : Nat) (h : j.state = .Queued) :
      JobStep j ⟨.Fetching, 10, t, 0⟩
  | fetchAdvance (j : SyncJob) (p' : Nat) (h : j.state = .Fetching)
      (h1 : j.commentsProcessed ≤ p') (h2 : p' ≤ j.commentsTotal) :
      JobStep j ⟨.Fetching, fetchProgress p' j.commentsTotal, j.commentsTotal, p'⟩
  | startAnalyzing (j : SyncJob) (h : j.state = .Fetching) :
      JobStep j ⟨.Analyzing, 70, j.commentsTotal, j.commentsProcessed⟩
  | analyzeAdvance (j : SyncJob) (pr : Nat) (h : j.state = .Analyzing)
      (h1 : j.progressPercent ≤ pr) (h2 : pr ≤ 95) :
      JobStep j ⟨.Analyzing, pr, j.commentsTotal, j.commentsProcessed⟩
  | startFinalizing (j : SyncJob) (h : j.state = .Analyzing) :
      JobStep j ⟨.Finalizing, 95, j.commentsTotal, j.commentsProcessed⟩
  | complete (j : SyncJob) (h : j.state = .Finalizing) :
      JobStep j ⟨.Completed, 100, j.commentsTotal, j.commentsProcessed⟩
  | fail (j : SyncJob) (h : j.state ≠ .Completed) (h' : j.state ≠ .Failed) :
      JobStep j ⟨.Failed, j.progressPercent, j.commentsTotal, j.commentsProcessed⟩

def JobReachable (j : SyncJob) : Prop :=
  Relation.ReflTransGen JobStep initJob j


/-- State-indexed progress invariant of the orchestrator model. -/
abbrev JobInv (j : SyncJob) : Prop :=
  (j.state = .Queued → j.progressPercent = 0 ∧ j.commentsProcessed = 0) ∧
  (j.state = .Fetching →
    j.progressPercent = fetchProgress j.commentsProcessed j.commentsTotal ∧
    j.commentsProcessed ≤ j.commentsTotal) ∧
  (j.state = .Analyzing → 70 ≤ j.progressPercent ∧ j.progressPercent ≤ 95) ∧
  (j.state = .Finalizing → j.progressPercent = 95) ∧
  (j.state = .Completed → j.progressPercent = 100) ∧
  (j.state = .Failed → j.progressPercent ≤ 95)

theorem fetchProgress_le (processed total : Nat) (h : processed ≤ total) :
    fetchProgress processed total ≤ 70 := by
  have hmax : 0 < max total 1 := lt_of_lt_of_le Nat.one_pos (le_max_right total 1)
  have h1 : 60 * processed ≤ 60 * max total 1 :=
    Nat.mul_le_mul_left 60 (le_trans h (le_max_left total 1))
  have h2 : 60 * processed / max total 1 ≤ 60 := by
    calc 60 * processed / max total 1 ≤ 60 * max total 1 / max total 1 :=
          Nat.div_le_div_right h1
      _ = 60 := Nat.mul_div_cancel 60 hmax
  unfold fetchProgress
  omega

theorem fetchProgress_ge (processed total : Nat) : 10 ≤ fetchProgress processed total :=
  Nat.le_add_right 10 _

theorem fetchProgress_mono (p p' total : Nat) (h : p ≤ p') :
    fetchProgress p total ≤ fetchProgress p' total := by
  unfold fetchProgress
  have := Nat.div_le_div_right (c := max total 1) (Nat.mul_le_mul_left 60 h)
  omega

theorem fetchProgress_zero (total : Nat) : fetchProgress 0 total = 10 := by
  simp [fetchProgress]

theorem jobInv_init : JobInv initJob := by
  refine ⟨fun _ => ⟨rfl, rfl⟩, ?_, ?_, ?_, ?_, ?_⟩ <;> intro hst <;> simp [initJob] at hst

theorem jobInv_step {j j' : SyncJob} (h : JobStep j j') (hinv : JobInv j) : JobInv j' := by
  cases h with
  | pickup t hq =>
    exact ⟨(fun h => nomatch h),
      fun _ => ⟨(fetchProgress_zero t).symm, Nat.zero_le t⟩,
      (fun h => nomatch h), (fun h => nomatch h), (fun h => nomatch h), (fun h => nomatch h)⟩
  | fetchAdvance p' hf h1 h2 =>
    exact ⟨(fun h => nomatch h), fun _ => ⟨rfl, h2⟩,
      (fun h => nomatch h), (fun h => nomatch h), (fun h => nomatch h), (fun h => nomatch h)⟩
  | startAnalyzing hf =>
    exact ⟨(fun h => nomatch h), (fun h => nomatch h),
      fun _ => ⟨le_refl 70, by show (70 : Nat) ≤ 95; omega⟩,
      (fun h => nomatch h), (fun h => nomatch h), (fun h => nomatch h)⟩
  | analyzeAdvance pr ha h1 h2 =>
    have h70 : 70 ≤ j.progressPercent := (hinv.2.2.1 ha).1
    exact ⟨(fun h => nomatch h), (fun h => nomatch h),
      fun _ => ⟨le_trans h70 h1, h2⟩,
      (fun h => nomatch h), (fun h => nomatch h), (fun h => nomatch h)⟩
  | startFinalizing ha =>
    exact ⟨(fun h => nomatch h), (fun h => nomatch h), (fun h => nomatch h),
      fun _ => rfl, (fun h => nomatch h), (fun h => nomatch h)⟩
  | complete hf =>
    exact ⟨(fun h => nomatch h), (fun h => nomatch h), (fun h => nomatch h),
      (fun h => nomatch h), fun _ => rfl, (fun h => nomatch h)⟩
  | fail hc hf =>
    refine ⟨(fun h => nomatch h), (fun h => nomatch h), (fun h => nomatch h),
      (fun h => nomatch h), (fun h => nomatch h), fun _ => ?_⟩
    show j.progressPercent ≤ 95
    cases hst : j.state with
    | Queued => have := hinv.1 hst; omega
    | Fetching =>
      have hf2 := hinv.2.1 hst
      have := fetchProgress_le j.commentsProcessed j.commentsTotal hf2.2
      omega
    | Analyzing => have := hinv.2.2.1 hst; omega
    | Finalizing => have := hinv.2.2.2.1 hst; omega
    | Completed => exact absurd hst hc
    | Failed => exact absurd hst hf

theorem progress_mono_step {j j' : SyncJob} (h : JobStep j j') (hinv : JobInv j) :
    j.progressPercent ≤ j'.progressPercent := by
  cases h with
  | pickup t hq =>
    have := hinv.1 hq
    show j.progressPercent ≤ 10
    omega
  | fetchAdvance p' hf h1 h2 =>
    have hf2 := hinv.2.1 hf
    show j.progressPercent ≤ fetchProgress p' j.commentsTotal
    calc j.progressPercent = fetchProgress j.commentsProcessed j.commentsTotal := hf2.1
      _ ≤ fetchProgress p' j.commentsTotal := fetchProgress_mono _ _ _ h1
  | startAnalyzing hf =>
    have hf2 := hinv.2.1 hf
    have := fetchProgress_le j.commentsProcessed j.commentsTotal hf2.2
    show j.progressPercent ≤ 70
    omega
  | analyzeAdvance pr ha h1 h2 => exact h1
  | startFinalizing ha =>
    have := hinv.2.2.1 ha
    show j.progressPercent ≤ 95
    omega
  | complete hf =>
    have := hinv.2.2.2.1 hf
    show j.progressPercent ≤ 100
    omega
  | fail hc hf => exact le_refl _

theorem jobInv_reachable (j : SyncJob) (h : JobReachable j) : JobInv j := by
  induction h with
  | refl => exact jobInv_init
  | tail hab hbc ih => exact jobInv_step hbc ih

theorem no_step_from_terminal {j j' : SyncJob} (h : JobStep j j') :
    j.state ≠ .Completed ∧ j.state ≠ .Failed := by
  cases h with
  | pickup t hq => rw [hq]; exact ⟨by decide, by decide⟩
  | fetchAdvance p' hf h1 h2 => rw [hf]; exact ⟨by decide, by decide⟩
  | startAnalyzing hf => rw [hf]; exact ⟨by decide, by decide⟩
  | analyzeAdvance pr ha h1 h2 => rw [ha]; exact ⟨by decide, by decide⟩
  | startFinalizing ha => rw [ha]; exact ⟨by decide, by decide⟩
  | complete hf => rw [hf]; exact ⟨by decide, by decide⟩
  | fail hc hf => exact ⟨hc, hf⟩

/-- Modelled from the spec: the status string under which the backend
exposes an orchestrator state through `getJobStatus` — the sync-job record
carries only `queued|processing|completed|failed`, with `processing`
covering the fetching, analyzing and finalizing phases. -/
def exposedStatus : JobState → String
  | .Queued => "queued"
  | .Fetching => "processing"
  | .Analyzing => "processing"
  | .Finalizing => "processing"
  | .Completed => "completed"
  | .Failed => "failed"

/-- Claim C2: along every run of the orchestrator the job's
`progressPercent` never decreases, and it equals 100 exactly in the
`Completed` state. -/
theorem C2_progress_monotone_and_complete_iff_100 :
    (∀ j j' : SyncJob, JobReachable j → JobStep j j' →
      j.progressPercent ≤ j'.progressPercent) ∧
    (∀ j : SyncJob, JobReachable j →
      (j.state = .Completed ↔ j.progressPercent = 100)) := by
  constructor
  · intro j j' hr hs
    exact progress_mono_step hs (jobInv_reachable j hr)
  · intro j hr
    have hinv := jobInv_reachable j hr
    constructor
    · intro h
      exact hinv.2.2.2.2.1 h
    · intro h100
      cases hst : j.state with
      | Queued => have := hinv.1 hst; omega
      | Fetching =>
        have h2 := hinv.2.1 hst
        have := fetchProgress_le j.commentsProcessed j.commentsTotal h2.2
        omega
      | Analyzing => have := hinv.2.2.1 hst; omega
      | Finalizing => have := hinv.2.2.2.1 hst; omega
      | Completed => rfl
      | Failed => have := hinv.2.2.2.2.2 hst; omega

theorem C2_progress_monotone_and_complete_iff_100_witness :
    (initJob.progressPercent ≤ (⟨.Fetching, 10, 5, 0⟩ : SyncJob).progressPercent) ∧
    ((⟨.Completed, 100, 5, 5⟩ : SyncJob).state = .Completed ↔
      (⟨.Completed, 100, 5, 5⟩ : SyncJob).progressPercent = 100) := by
  constructor
  · exact (C2_progress_monotone_and_complete_iff_100).1 initJob ⟨.Fetching, 10, 5, 0⟩
      Relation.ReflTransGen.refl (JobStep.pickup initJob 5 rfl)
  · refine (C2_progress_monotone_and_complete_iff_100).2 ⟨.Completed, 100, 5, 5⟩ ?_
    have s1 : JobStep initJob ⟨.Fetching, 10, 5, 0⟩ := JobStep.pickup initJob 5 rfl
    have s2 : JobStep (⟨.Fetching, 10, 5, 0⟩ : SyncJob) ⟨.Fetching, fetchProgress 5 5, 5, 5⟩ :=
      JobStep.fetchAdvance ⟨.Fetching, 10, 5, 0⟩ 5 rfl (Nat.zero_le 5) (le_refl 5)
    have s3 : JobStep (⟨.Fetching, fetchProgress 5 5, 5, 5⟩ : SyncJob) ⟨.Analyzing, 70, 5, 5⟩ :=
      JobStep.startAnalyzing ⟨.Fetching, fetchProgress 5 5, 5, 5⟩ rfl
    have s4 : JobStep (⟨.Analyzing, 70, 5, 5⟩ : SyncJob) ⟨.Finalizing, 95, 5, 5⟩ :=
      JobStep.startFinalizing ⟨.Analyzing, 70, 5, 5⟩ rfl
    have s5 : JobStep (⟨.Finalizing, 95, 5, 5⟩ : SyncJob) ⟨.Completed, 100, 5, 5⟩ :=
      JobStep.complete ⟨.Finalizing, 95, 5, 5⟩ rfl
    exact Relation.ReflTransGen.tail (Relation.ReflTransGen.tail (Relation.ReflTransGen.tail
      (Relation.ReflTransGen.tail (Relation.ReflTransGen.single s1) s2) s3) s4) s5

/-- Claim C6: the `Queued → Fetching` transition sets `progressPercent` to
10; while fetching, progress stays in the 10–70 band and equals the
proportional value `fetchProgress commentsProcessed commentsTotal`; the
phases past fetching start at progress 70 or above — in the model the
post-fetch states carry progress ≥ 70, and in the `Analyzing` page's
`updateSteps` the post-download steps are still `'pending'` whenever
progress < 70. -/
theorem C6_fetch_progress_band :
    (∀ j j' : SyncJob, JobStep j j' → j.state = .Queued → j'.state = .Fetching →
      j'.progressPercent = 10) ∧
    (∀ j : SyncJob, JobReachable j → j.state = .Fetching →
      10 ≤ j.progressPercent ∧ j.progressPercent ≤ 70 ∧
      j.progressPercent = fetchProgress j.commentsProcessed j.commentsTotal) ∧
    (∀ j : SyncJob, JobReachable j →
      (j.state = .Analyzing ∨ j.state = .Finalizing ∨ j.state = .Completed) →
      70 ≤ j.progressPercent) ∧
    (∀ progress processed total : Nat, progress < 70 →
      (updateSteps progress processed total initialSteps).analyzingStep = "pending" ∧
      (updateSteps progress processed total initialSteps).categorizingStep = "pending" ∧
      (updateSteps progress processed total initialSteps).extractingStep = "pending") := by
  refine ⟨?_, ?_, ?_, ?_⟩
  · intro j j' hs hq hf
    cases hs with
    | pickup t h => rfl
    | fetchAdvance p' h h1 h2 => rw [hq] at h; exact absurd h (by decide)
    | startAnalyzing h => exact (nomatch hf)
    | analyzeAdvance pr h h1 h2 => exact (nomatch hf)
    | startFinalizing h => exact (nomatch hf)
    | complete h => exact (nomatch hf)
    | fail hc hfl => exact (nomatch hf)
  · intro j hr hf
    have h2 := (jobInv_reachable j hr).2.1 hf
    refine ⟨?_, ?_, h2.1⟩
    · rw [h2.1]; exact fetchProgress_ge _ _
    · rw [h2.1]; exact fetchProgress_le _ _ h2.2
  · intro j hr hd
    have hinv := jobInv_reachable j hr
    rcases hd with h | h | h
    · exact (hinv.2.2.1 h).1
    · have := hinv.2.2.2.1 h; omega
    · have := hinv.2.2.2.2.1 h; omega
  · intro p proc tot h
    have hA : ¬(75 ≤ p ∧ p < 85) := by omega
    have hB : ¬(85 ≤ p) := by omega
    have hC : ¬(85 ≤ p ∧ p < 95) := by omega
    have hD : ¬(95 ≤ p) := by omega
    have hE : ¬(95 ≤ p ∧ p < 100) := by omega
    have hF : ¬(100 ≤ p) := by omega
    refine ⟨?_, ?_, ?_⟩
    · show (if 75 ≤ p ∧ p < 85 then "inProgress"
        else if 85 ≤ p then "completed" else initialSteps.analyzingStep) = "pending"
      rw [if_neg hA, if_neg hB]; rfl
    · show (if 85 ≤ p ∧ p < 95 then "inProgress"
        else if 95 ≤ p then "completed" else initialSteps.categorizingStep) = "pending"
      rw [if_neg hC, if_neg hD]; rfl
    · show (if 95 ≤ p ∧ p < 100 then "inProgress"
        else if 100 ≤ p then "completed" else initialSteps.extractingStep) = "pending"
      rw [if_neg hE, if_neg hF]; rfl

theorem C6_fetch_progress_band_witness :
    ((⟨.Fetching, 10, 5, 0⟩ : SyncJob).progressPercent = 10) ∧
    ((updateSteps 50 3 10 initialSteps).analyzingStep = "pending" ∧
     (updateSteps 50 3 10 initialSteps).categorizingStep = "pending" ∧
     (updateSteps 50 3 10 initialSteps).extractingStep = "pending") :=
  ⟨C6_fetch_progress_band.1 initJob ⟨.Fetching, 10, 5, 0⟩
      (JobStep.pickup initJob 5 rfl) rfl rfl,
   C6_fetch_progress_band.2.2.2 50 3 10 (by omega)⟩

/-- Claim C1, counterexample: the `JobStatus` record exposed by
`getJobStatus` does not carry the six claimed states — `'processing'` is a
status value of the code that is not among the claim's states (not even up
to case), and `Fetching` is a claimed state the record can never carry. -/
theorem C1_jobStatus_states_counterexample :
    "processing" ∈ jobStatusStates ∧
    "processing" ∉ specClaimStates ∧
    "processing" ∉ specClaimStatesLower ∧
    "Fetching" ∈ specClaimStates ∧
    "Fetching" ∉ jobStatusStates ∧
    "fetching" ∉ jobStatusStates := by
  decide

/-- Claim C1, amended: the orchestrator's state machine (spec model) keeps
`Completed` and `Failed` terminal — no transition leaves either — while the
`JobStatus` record exposed by `getJobStatus` carries the four coarse states
`queued`, `processing`, `completed`, `failed` (with `processing` covering
the fetching/analyzing/finalizing phases), and the status-polling page
stops polling exactly on `completed` and `failed`. -/
theorem C1_jobStatus_states_amended :
    (∀ st : JobState, exposedStatus st ∈ jobStatusStates) ∧
    (∀ js : JobStatusRec, (pollHandler js).stopPolling = true ↔
      (js.status = "completed" ∨ js.status = "failed")) ∧
    (∀ j j' : SyncJob, JobStep j j' → j.state ≠ .Completed ∧ j.state ≠ .Failed) := by
  refine ⟨?_, ?_, ?_⟩
  · intro st
    cases st <;> decide
  · intro js
    by_cases h1 : js.status = "completed"
    · simp [pollHandler, h1]
    · by_cases h2 : js.status = "failed"
      · simp [pollHandler, h1, h2]
      · simp [pollHandler, h1, h2]
  · intro j j' hs
    exact no_step_from_terminal hs

theorem C1_jobStatus_states_amended_witness :
    exposedStatus .Fetching ∈ jobStatusStates ∧
    (pollHandler ⟨"j1", "v1", "completed", 100, 5, 5, none, "", ""⟩).stopPolling = true ∧
    (initJob.state ≠ .Completed ∧ initJob.state ≠ .Failed) :=
  ⟨C1_jobStatus_states_amended.1 .Fetching,
   (C1_jobStatus_states_amended.2.1 ⟨"j1", "v1", "completed", 100, 5, 5, none, "", ""⟩).2
     (Or.inl rfl),
   C1_jobStatus_states_amended.2.2 initJob ⟨.Fetching, 10, 5, 0⟩
     (JobStep.pickup initJob 5 rfl)⟩

/-! ## Answer Cache and suggested questions
(`AskAISection.tsx`; Answer Cache warm/lookup modelled from spec §4.6) -/

/-- The five suggested questions offered by the Ask-AI UI
(`AskAISection.tsx`, lines 29–35). -/
def suggestedQuestions : List String :=
  ["What are the main themes in these comments?",
   "What questions are viewers asking most?",
   "What feedback do viewers have about the video?",
   "Are there any technical issues mentioned?",
   "What do viewers like most about this video?"]

/-- Modelled from the spec: the fixed list of canonical questions run by
`warm` (§4.6); the backend answer-cache service is not among the provided
sources. -/
def canonicalQuestions : List String :=
  ["what are people complaining about",
   "what questions are people asking",
   "what do people love most",
   "what should I make next",
   "show me toxic comments"]

/-- Modelled from the spec: question canonicalisation of the Answer Cache
(§4.6): case-fold, trim, collapse whitespace. -/
def canonicalize (q : String) : String :=
  String.intercalate " "
    ((((q.toList.map Char.toLower).splitOnP (fun c => c.isWhitespace)).filter
      (fun w => w ≠ [])).map (fun w => String.mk w))

structure PreAnswers where
  preGeneratedAnswers : List (String × String)
  deriving Repr, DecidableEq

/-- Modelled from the spec: `warm(videoRef)` (§4.6) answers each canonical
question with one AI call and stores the results into
`Video.preGeneratedAnswers` under the canonicalised question. -/
def warm (net : String → String) : PreAnswers :=
  ⟨canonicalQuestions.map (fun q => (canonicalize q, net q))⟩

structure LookupResult where
  answer : String
  cached : Bool
  aiCalls : Nat
  deriving Repr, DecidableEq

/-- Modelled from the spec: `lookup(videoRef, question)` (§4.6):
canonicalise, check `preGeneratedAnswers`, then the lazy cache; a hit
returns `cached = true` with no AI call; a miss answers via one AI call and
stores the answer lazily with a short TTL. -/
def lookup (v : PreAnswers) (lazy : Cache String) (now ttl : Nat)
    (net : String → String) (q : String) : LookupResult × Cache String :=
  let cq := canonicalize q
  match v.preGeneratedAnswers.find? (fun p => p.1 == cq) with
  | some p => (⟨p.2, true, 0⟩, lazy)
  | none =>
    match DataCache.get lazy cq now with
    | (some a, lazy1) => (⟨a, true, 0⟩, lazy1)
    | (none, lazy1) =>
      let ans := net q
      (⟨ans, false, 1⟩, DataCache.set lazy1 cq ans ttl now)

theorem find?_canonical_map_isSome (net : String → String) (l : List String) (q : String)
    (h : q ∈ l) :
    ((l.map (fun x => (canonicalize x, net x))).find?
      (fun p => p.1 == canonicalize q)).isSome := by
  induction l with
  | nil => exact absurd h (List.not_mem_nil q)
  | cons a l ih =>
    by_cases hb : (canonicalize a == canonicalize q) = true
    · rw [List.map_cons]
      simp [List.find?, hb]
    · rcases List.mem_cons.mp h with rfl | hq
      · exact absurd (by simp) hb
      · rw [List.map_cons]
        simp only [List.find?, hb]
        simpa [hb] using ih hq

theorem warm_find_isSome (net : String → String) (q : String)
    (h : q ∈ canonicalQuestions) :
    ((warm net).preGeneratedAnswers.find? (fun p => p.1 == canonicalize q)).isSome :=
  find?_canonical_map_isSome net canonicalQuestions q h

/-- Claim C3, counterexample: the UI's first suggested question is not in
the canonical warm list, not even after canonicalisation, so the suggested
questions are not drawn from the fixed canonical list. -/
theorem C3_suggested_questions_counterexample :
    "What are the main themes in these comments?" ∈ suggestedQuestions ∧
    "What are the main themes in these comments?" ∉ canonicalQuestions ∧
    canonicalize "What are the main themes in these comments?" ∉
      canonicalQuestions.map canonicalize := by
  refine ⟨by decide, by decide, by decide⟩

/-- Claim C3, amended: after `warm`, a lookup of any canonical question is
answered with `cached = true`, zero AI calls and an untouched lazy cache
(spec model); the questions the UI suggests are the five fixed strings of
`AskAISection`, a list disjoint (even after canonicalisation) from the
canonical warm list. -/
theorem C3_warm_lookup_cached :
    (∀ (net : String → String) (lazy : Cache String) (now ttl : Nat) (q : String),
      q ∈ canonicalQuestions →
      (lookup (warm net) lazy now ttl net q).1.cached = true ∧
      (lookup (warm net) lazy now ttl net q).1.aiCalls = 0 ∧
      (lookup (warm net) lazy now ttl net q).2 = lazy) ∧
    (∀ q ∈ suggestedQuestions, canonicalize q ∉ canonicalQuestions.map canonicalize) := by
  constructor
  · intro net lazy now ttl q hq
    have hs := warm_find_isSome net q hq
    cases hp : ((warm net).preGeneratedAnswers.find? (fun p => p.1 == canonicalize q)) with
    | none => rw [hp] at hs; simp at hs
    | some p =>
      refine ⟨?_, ?_, ?_⟩ <;> simp [lookup, hp]
  · decide

theorem C3_warm_lookup_cached_witness :
    (lookup (warm (fun _ => "ans")) [] 0 1000 (fun _ => "ans")
      "what are people complaining about").1.cached = true ∧
    (lookup (warm (fun _ => "ans")) [] 0 1000 (fun _ => "ans")
      "what are people complaining about").1.aiCalls = 0 ∧
    canonicalize "What do viewers like most about this video?" ∉
      canonicalQuestions.map canonicalize :=
  ⟨(C3_warm_lookup_cached.1 (fun _ => "ans") [] 0 1000
      "what are people complaining about" (by decide)).1,
   (C3_warm_lookup_cached.1 (fun _ => "ans") [] 0 1000
      "what are people complaining about" (by decide)).2.1,
   C3_warm_lookup_cached.2 "What do viewers like most about this video?" (by decide)⟩

/-! ## Quota gate and the add-video submission flow
(`ChoosePlan.tsx`, `AddVideo.tsx`; Quota Ledger modelled from spec §4.4/§7) -/

/-- The per-plan `videosPerMonth` limits of the `plans` array in
`ChoosePlan.tsx` (free 1, starter 50, pro 100, business 999). -/
def plansVideosPerMonth : List (String × Nat) :=
  [("free", 1), ("starter", 50), ("pro", 100), ("business", 999)]

structure UsageCounter where
  used : Nat
  carriedOverCredits : Nat
  deriving Repr, DecidableEq

structure QuotaExceeded where
  feature : String
  plan : String
  deriving Repr, DecidableEq

/-- Modelled from the spec: `checkAndReserve(identity, feature)` of the
Quota Ledger (§4.4), in the in-period case (no reset due): fail with
`QuotaExceeded(feature, plan)` when `used + 1 > limit + carriedOverCredits`,
otherwise increment and succeed. -/
def checkAndReserve (plan : String) (limit : Nat) (c : UsageCounter)
    (feature : String) : Except QuotaExceeded UsageCounter :=
  if c.used + 1 > limit + c.carriedOverCredits then .error ⟨feature, plan⟩
  else .ok ⟨c.used + 1, c.carriedOverCredits⟩

/-- Modelled from the spec: the quota gate of `submitSync` (§4.1/§6) — a
failing check returns the error and creates no job. -/
def submitSync (plan : String) (limit : Nat) (c : UsageCounter)
    (jobs : List Nat) (newId : Nat) :
    Except QuotaExceeded Nat × List Nat × UsageCounter :=
  match checkAndReserve plan limit c "videos" with
  | .error e => (.error e, jobs, c)
  | .ok c1 => (.ok newId, jobs ++ [newId], c1)

inductive AnalyzeOutcome where
  | navigated : String → AnalyzeOutcome
  | upgradePrompt : String → String → AnalyzeOutcome
  | notFoundError : String → AnalyzeOutcome
  | invalidError : String → AnalyzeOutcome
  | genericError : String → String → AnalyzeOutcome
  deriving Repr, DecidableEq

/-- The catch branch of `handleAnalyze` in `AddVideo.tsx` (lines 79–97):
a message containing `'403'` or `'limit'` produces the upgrade prompt; then
`'404'`/`'not found'`, then `'Invalid'`, else the generic failure toast. -/
def handleAnalyzeError (m : String) : AnalyzeOutcome :=
  if strIncludes m "403" || strIncludes m "limit" then
    .upgradePrompt "You\x27ve reached your plan limit. Please upgrade to analyze more videos."
      "Plan limit reached. Upgrade to continue."
  else if strIncludes m "404" || strIncludes m "not found" then
    .notFoundError "Video not found or comments are disabled"
  else if strIncludes m "Invalid" then
    .invalidError m
  else
    .genericError "Failed to analyze video. Please try again."
      "Something went wrong. Please try again."

/-- Mirrors `handleAnalyze` of `AddVideo.tsx`: navigation to the analyzing page
happens only when `analyzeVideo` succeeded with a job id. -/
def handleAnalyze (r : Except String String) : AnalyzeOutcome :=
  match r with
  | .ok jobId => .navigated ("/analyzing?jobId=" ++ jobId)
  | .error m => handleAnalyzeError m

/-- Claim C4: the free plan allows 1 video per month; with the limit fully
used, submission fails with `QuotaExceeded(videos, plan)`, creates no job
and leaves the counter untouched (spec model); in the frontend, an error
message carrying `'403'` or `'limit'` is surfaced as the upgrade prompt,
not the generic failure, and no error outcome ever navigates to the
job-progress view. -/
theorem C4_quota_exceeded_flow :
    ((plansVideosPerMonth.find? (fun p => p.1 == "free")).map (fun p => p.2) = some 1) ∧
    (∀ (plan : String) (limit : Nat) (c : UsageCounter) (jobs : List Nat) (newId : Nat),
      limit + c.carriedOverCredits ≤ c.used →
      (submitSync plan limit c jobs newId).1 = .error ⟨"videos", plan⟩ ∧
      (submitSync plan limit c jobs newId).2.1 = jobs ∧
      (submitSync plan limit c jobs newId).2.2 = c) ∧
    (∀ m : String, (strIncludes m "403" || strIncludes m "limit") = true →
      handleAnalyze (.error m) =
        .upgradePrompt
          "You\x27ve reached your plan limit. Please upgrade to analyze more videos."
          "Plan limit reached. Upgrade to continue.") ∧
    (∀ m target : String, handleAnalyze (.error m) ≠ .navigated target) := by
  refine ⟨by decide, ?_, ?_, ?_⟩
  · intro plan limit c jobs newId h
    have hcond : c.used + 1 > limit + c.carriedOverCredits := by omega
    refine ⟨?_, ?_, ?_⟩ <;> simp [submitSync, checkAndReserve, hcond]
  · intro m h
    simp [handleAnalyze, handleAnalyzeError, h]
  · intro m target
    show handleAnalyzeError m ≠ AnalyzeOutcome.navigated target
    unfold handleAnalyzeError
    split
    · simp
    · split
      · simp
      · split <;> simp

theorem C4_quota_exceeded_flow_witness :
    (submitSync "free" 1 ⟨1, 0⟩ [] 42).1 = .error ⟨"videos", "free"⟩ ∧
    (submitSync "free" 1 ⟨1, 0⟩ [] 42).2.1 = [] ∧
    handleAnalyze (.error "Monthly video limit reached") =
      .upgradePrompt
        "You\x27ve reached your plan limit. Please upgrade to analyze more videos."
        "Plan limit reached. Upgrade to continue." ∧
    handleAnalyze (.error "Monthly video limit reached") ≠ .navigated "/analyzing?jobId=42" :=
  ⟨(C4_quota_exceeded_flow.2.1 "free" 1 ⟨1, 0⟩ [] 42 (by decide)).1,
   (C4_quota_exceeded_flow.2.1 "free" 1 ⟨1, 0⟩ [] 42 (by decide)).2.1,
   C4_quota_exceeded_flow.2.2.1 "Monthly video limit reached" (by decide),
   C4_quota_exceeded_flow.2.2.2 "Monthly video limit reached" "/analyzing?jobId=42"⟩

/-! ## Rate limiter key function
(rate-limiting document quoting `middleware/rate_limiter.py`) -/

structure UserInfo where
  userId : Option String
  deriving Repr, DecidableEq

structure RequestState where
  user : Option UserInfo
  remoteAddress : String
  deriving Repr, DecidableEq

/-- Modelled from the spec: `get_user_identifier` of the rate limiter
(spec §5; quoted verbatim in the repository's rate-limiting document):
`user:<userId>` when an authenticated user with a truthy `userId` is
attached to the request, else `ip:<remote address>`. -/
def get_user_identifier (r : RequestState) : String :=
  match r.user with
  | some u =>
    match u.userId with
    | some uid => if uid = "" then "ip:" ++ r.remoteAddress else "user:" ++ uid
    | none => "ip:" ++ r.remoteAddress
  | none => "ip:" ++ r.remoteAddress

structure LimiterConfig where
  strategy : String
  default_limits : List String
  headers_enabled : Bool
  deriving Repr, DecidableEq

/-- Modelled from the spec: the `Limiter` configuration (quoted verbatim in
the rate-limiting document): fixed-window counting, default 100/minute,
rate-limit headers on. -/
def limiter : LimiterConfig :=
  ⟨"fixed-window", ["100/minute"], true⟩

/-- Claim C7: the rate-limit counter key is `user:<userId>` exactly when an
authenticated user with a (truthy) userId is attached to the request, and
`ip:<address>` in every other case; the limiter counts with a fixed-window
strategy. -/
theorem C7_rate_limiter_key :
    (∀ (r : RequestState) (u : UserInfo) (uid : String),
      r.user = some u → u.userId = some uid → uid ≠ "" →
      get_user_identifier r = "user:" ++ uid) ∧
    (∀ r : RequestState, r.user = none →
      get_user_identifier r = "ip:" ++ r.remoteAddress) ∧
    (∀ (r : RequestState) (u : UserInfo), r.user = some u → u.userId = none →
      get_user_identifier r = "ip:" ++ r.remoteAddress) ∧
    (∀ (r : RequestState) (u : UserInfo), r.user = some u → u.userId = some "" →
      get_user_identifier r = "ip:" ++ r.remoteAddress) ∧
    limiter.strategy = "fixed-window" := by
  refine ⟨?_, ?_, ?_, ?_, rfl⟩
  · intro r u uid hu hid hne
    simp [get_user_identifier, hu, hid, hne]
  · intro r hu
    simp [get_user_identifier, hu]
  · intro r u hu hid
    simp [get_user_identifier, hu, hid]
  · intro r u hu hid
    simp [get_user_identifier, hu, hid]

theorem C7_rate_limiter_key_witness :
    get_user_identifier ⟨some ⟨some "u123"⟩, "10.0.0.1"⟩ = "user:u123" ∧
    get_user_identifier ⟨none, "10.0.0.1"⟩ = "ip:10.0.0.1" ∧
    get_user_identifier ⟨some ⟨none⟩, "10.0.0.1"⟩ = "ip:10.0.0.1" ∧
    get_user_identifier ⟨some ⟨some ""⟩, "10.0.0.1"⟩ = "ip:10.0.0.1" :=
  ⟨C7_rate_limiter_key.1 ⟨some ⟨some "u123"⟩, "10.0.0.1"⟩ ⟨some "u123"⟩ "u123"
      rfl rfl (by decide),
   C7_rate_limiter_key.2.1 ⟨none, "10.0.0.1"⟩ rfl,
   C7_rate_limiter_key.2.2.1 ⟨some ⟨none⟩, "10.0.0.1"⟩ ⟨none⟩ rfl rfl,
   C7_rate_limiter_key.2.2.2.1 ⟨some ⟨some ""⟩, "10.0.0.1"⟩ ⟨some ""⟩ rfl rfl⟩
